import Mathlib

/-!
Shallow embedding of the Carbon-footprint-tracker repository
(`utilis.py`, `app.py`, `database.py`).

Python floats are modelled as rationals; Python dicts as association
lists with a get-with-default lookup mirroring `dict.get(key, default)`.
The definitions follow the source; `bandOf`, `ruleFires` and
`firedMessages` restate the spec wording of the comparator bands and the
recommendation rules, for comparison against the embedded code.
-/

namespace CarbonTracker

/-! ## Definitions -/


/-- `dict.get(key, default)` on an association list: value of the first
matching key, or the default. -/
def dictGet (d : List (String × ℚ)) (k : String) (default : ℚ) : ℚ :=
  match d.find? (fun p => p.1 == k) with
  | some p => p.2
  | none => default

/-- `dict[key]` on an association list, used only at keys known to be
present (where it coincides with `dict.get(key, 0)`). -/
def dictIndex (d : List (String × ℚ)) (k : String) : ℚ :=
  dictGet d k 0

/-- `EMISSION_FACTORS` from `utilis.py` (kg CO2 per unit). -/
def EMISSION_FACTORS : List (String × ℚ) :=
  [("car_petrol", 21/100),
   ("car_diesel", 18/100),
   ("car_electric", 5/100),
   ("public_transport", 8/100),
   ("motorcycle", 11/100),
   ("flight_short", 24/100),
   ("flight_long", 18/100),
   ("electricity", 233/1000),
   ("natural_gas", 184/1000),
   ("meat_beef", 6),
   ("meat_pork", 17/10),
   ("meat_chicken", 9/10),
   ("vegetarian", 5/10),
   ("vegan", 4/10)]

/-- `NATIONAL_AVERAGES` from `utilis.py` (kg CO2 per year). -/
def NATIONAL_AVERAGES : List (String × ℚ) :=
  [("UK", 5200),
   ("USA", 16000),
   ("EU", 6800),
   ("World", 4800),
   ("China", 7000),
   ("India", 1900),
   ("Australia", 15000),
   ("Canada", 14000)]

/-- `calculate_transportation_emissions` from `utilis.py`. -/
def calculate_transportation_emissions (transport_type : String) (distance : ℚ) : ℚ :=
  distance * dictGet EMISSION_FACTORS transport_type 0

/-- `calculate_household_emissions` from `utilis.py`. -/
def calculate_household_emissions (electricity_kwh gas_kwh : ℚ) : ℚ :=
  electricity_kwh * dictIndex EMISSION_FACTORS "electricity"
    + gas_kwh * dictIndex EMISSION_FACTORS "natural_gas"

/-- `calculate_food_emissions` from `utilis.py`. -/
def calculate_food_emissions (diet_type : String) (meals_per_week : ℚ) : ℚ :=
  meals_per_week * dictGet EMISSION_FACTORS diet_type 0

/-- The dict returned by `get_footprint_comparison` in `utilis.py`. -/
structure ComparisonResult where
  country : String
  national_avg : ℚ
  percentage : ℚ
  message : String
  status : String
deriving Repr, DecidableEq

/-- `get_footprint_comparison` from `utilis.py`: national average with
fallback to "World", percentage, then the if/elif band cascade. -/
def get_footprint_comparison (annual_footprint : ℚ) (country : String) : ComparisonResult :=
  let national_avg := dictGet NATIONAL_AVERAGES country (dictIndex NATIONAL_AVERAGES "World")
  let percentage := annual_footprint / national_avg * 100
  if percentage > 120 then
    { country := country, national_avg := national_avg, percentage := percentage,
      message := "Your carbon footprint is significantly higher than the " ++ country ++ " average.",
      status := "high" }
  else if percentage > 100 then
    { country := country, national_avg := national_avg, percentage := percentage,
      message := "Your carbon footprint is above the " ++ country ++ " average.",
      status := "above_avg" }
  else if percentage > 80 then
    { country := country, national_avg := national_avg, percentage := percentage,
      message := "Your carbon footprint is close to the " ++ country ++ " average.",
      status := "average" }
  else if percentage > 50 then
    { country := country, national_avg := national_avg, percentage := percentage,
      message := "Your carbon footprint is below the " ++ country ++ " average. Good job!",
      status := "below_avg" }
  else
    { country := country, national_avg := national_avg, percentage := percentage,
      message := "Your carbon footprint is significantly lower than the " ++ country ++ " average. Excellent!",
      status := "low" }

/-- The four generic fallback recommendations in `get_recommendations`. -/
def GENERAL_RECOMMENDATIONS : List String :=
  ["Consider using renewable energy sources for your home.",
   "Look into carbon offsetting programs for emissions you can't reduce.",
   "Reduce, reuse, and recycle to minimize waste-related emissions.",
   "Support local businesses to reduce transportation emissions from goods."]

def transportRec : String :=
  "Consider carpooling, using public transport, or cycling for short journeys to reduce your driving emissions."

def flightRec : String :=
  "Reduce the number of flights you take. Consider trains for shorter journeys or virtual meetings instead of business travel."

def electricityRec : String :=
  "Reduce your electricity consumption by using energy-efficient appliances, LED bulbs, and being mindful of standby power."

def gasRec : String :=
  "Improve your home insulation and consider lowering your heating thermostat by 1-2°C to save energy."

def beefRec : String :=
  "Consider reducing beef consumption. Beef has one of the highest carbon footprints among food items."

def meatFreeRec : String :=
  "Try introducing 1-2 meat-free days per week to reduce your food-related carbon footprint."

/-- `get_recommendations` from `utilis.py`: start from an empty list,
conditionally append each rule's message in order, then substitute the
generic fallback when nothing fired. -/
def get_recommendations (emissions_data : List (String × ℚ)) : List String :=
  let recommendations : List String := []
  let recommendations :=
    if dictGet emissions_data "car_petrol" 0 > 30 ∨ dictGet emissions_data "car_diesel" 0 > 30 then
      recommendations ++ [transportRec] else recommendations
  let recommendations :=
    if dictGet emissions_data "flight_short" 0 > 50 ∨ dictGet emissions_data "flight_long" 0 > 100 then
      recommendations ++ [flightRec] else recommendations
  let recommendations :=
    if dictGet emissions_data "electricity" 0 > 40 then
      recommendations ++ [electricityRec] else recommendations
  let recommendations :=
    if dictGet emissions_data "natural_gas" 0 > 30 then
      recommendations ++ [gasRec] else recommendations
  let recommendations :=
    if dictGet emissions_data "meat_beef" 0 > 15 then
      recommendations ++ [beefRec] else recommendations
  let recommendations :=
    if dictGet emissions_data "meat_beef" 0 + dictGet emissions_data "meat_pork" 0
        + dictGet emissions_data "meat_chicken" 0 > 20 then
      recommendations ++ [meatFreeRec] else recommendations
  if recommendations = [] then GENERAL_RECOMMENDATIONS else recommendations

/-- One row of `format_emissions_for_download`'s DataFrame. -/
structure ExportRow where
  category : String
  timeframe : String
  emissions : ℚ
deriving Repr, DecidableEq

/-- The `results` bundle built by the submit handler in `app.py` and
stored in session state. -/
structure Results where
  weekly_total : ℚ
  annual_total : ℚ
  weekly_breakdown : List (String × ℚ)
  comparison : ComparisonResult
  recommendations : List String
deriving Repr, DecidableEq

/-- `format_emissions_for_download` from `utilis.py`: weekly rows for each
breakdown category, then the two total rows, then the national average. -/
def format_emissions_for_download (data : Results) : List ExportRow :=
  (data.weekly_breakdown.map fun p => ExportRow.mk p.1 "Weekly" p.2)
    ++ [ExportRow.mk "Total" "Weekly" data.weekly_total,
        ExportRow.mk "Total" "Annual" data.annual_total,
        ExportRow.mk "National Average" "Annual" data.comparison.national_avg]

/-- The form inputs of `carbon_calculator_form` in `app.py`. -/
structure CalculationInput where
  transport_type : String
  weekly_distance : ℚ
  short_flights : ℕ
  long_flights : ℕ
  electricity_kwh : ℚ
  gas_kwh : ℚ
  meat_beef : ℕ
  meat_pork : ℕ
  meat_chicken : ℕ
  vegetarian : ℕ
  vegan : ℕ
  country : String
deriving Repr, DecidableEq

/-- `short_flight_distance` in `app.py` (km). -/
def short_flight_distance : ℚ := 1000

/-- `long_flight_distance` in `app.py` (km). -/
def long_flight_distance : ℚ := 6000

/-- `flight_short_emissions` in the submit handler of `app.py`. -/
def flight_short_emissions (short_flights : ℕ) : ℚ :=
  ((short_flights : ℚ) * short_flight_distance * dictIndex EMISSION_FACTORS "flight_short") / 52

/-- `flight_long_emissions` in the submit handler of `app.py`. -/
def flight_long_emissions (long_flights : ℕ) : ℚ :=
  ((long_flights : ℚ) * long_flight_distance * dictIndex EMISSION_FACTORS "flight_long") / 52

/-- The `diet_emissions` dict built by the submit handler (one entry per
diet category, in `diet_options` order). -/
def diet_emissions (inp : CalculationInput) : List (String × ℚ) :=
  [("meat_beef", calculate_food_emissions "meat_beef" (inp.meat_beef : ℚ)),
   ("meat_pork", calculate_food_emissions "meat_pork" (inp.meat_pork : ℚ)),
   ("meat_chicken", calculate_food_emissions "meat_chicken" (inp.meat_chicken : ℚ)),
   ("vegetarian", calculate_food_emissions "vegetarian" (inp.vegetarian : ℚ)),
   ("vegan", calculate_food_emissions "vegan" (inp.vegan : ℚ))]

/-- The `detailed_emissions` dict built by the submit handler, fed to
`get_recommendations`. -/
def detailed_emissions (inp : CalculationInput) : List (String × ℚ) :=
  (inp.transport_type, calculate_transportation_emissions inp.transport_type inp.weekly_distance)
    :: ("flight_short", flight_short_emissions inp.short_flights)
    :: ("flight_long", flight_long_emissions inp.long_flights)
    :: ("electricity", inp.electricity_kwh * dictIndex EMISSION_FACTORS "electricity")
    :: ("natural_gas", inp.gas_kwh * dictIndex EMISSION_FACTORS "natural_gas")
    :: diet_emissions inp

/-- The submit handler of `carbon_calculator_form` in `app.py`
(lines 129-190): compute each category, the totals, the breakdown, the
comparison and the recommendations. -/
def run_calculation (inp : CalculationInput) : Results :=
  let transport_emissions := calculate_transportation_emissions inp.transport_type inp.weekly_distance
  let fse := flight_short_emissions inp.short_flights
  let fle := flight_long_emissions inp.long_flights
  let household_emissions := calculate_household_emissions inp.electricity_kwh inp.gas_kwh
  let total_diet_emissions := ((diet_emissions inp).map Prod.snd).sum
  let weekly_total := transport_emissions + fse + fle + household_emissions + total_diet_emissions
  let annual_total := weekly_total * 52
  let weekly_breakdown :=
    [("Transportation", transport_emissions),
     ("Short Flights", fse),
     ("Long Flights", fle),
     ("Household Energy", household_emissions),
     ("Diet", total_diet_emissions)]
  { weekly_total := weekly_total,
    annual_total := annual_total,
    weekly_breakdown := weekly_breakdown,
    comparison := get_footprint_comparison annual_total inp.country,
    recommendations := get_recommendations (detailed_emissions inp) }

/-- A row of the `carbon_footprints` table in `database.py`. -/
structure CarbonFootprint where
  id : ℕ
  user_name : String
  email : String
  weekly_total : ℚ
  annual_total : ℚ
  transport_emissions : ℚ
  short_flights_emissions : ℚ
  long_flights_emissions : ℚ
  household_emissions : ℚ
  diet_emissions : ℚ
  country : String
deriving Repr, DecidableEq

/-- `delete_footprint` from `database.py`: look up the first record with
the given id; if present delete it and return `true`, else return
`false`. The table is modelled as a list of rows. -/
def delete_footprint (store : List CarbonFootprint) (footprint_id : ℕ) :
    List CarbonFootprint × Bool :=
  match store.find? (fun f => f.id == footprint_id) with
  | some _ => (store.eraseP (fun f => f.id == footprint_id), true)
  | none => (store, false)

/-- The band cascade as the spec words it: strict comparisons against
120 / 100 / 80 / 50, evaluated top-down, first match winning. -/
def bandOf (percentage : ℚ) : String :=
  if percentage > 120 then "high"
  else if percentage > 100 then "above_avg"
  else if percentage > 80 then "average"
  else if percentage > 50 then "below_avg"
  else "low"

/-- The six threshold rules as (fired?, message) pairs, in the order the
source checks them. -/
def ruleFires (d : List (String × ℚ)) : List (Bool × String) :=
  [(decide (dictGet d "car_petrol" 0 > 30 ∨ dictGet d "car_diesel" 0 > 30), transportRec),
   (decide (dictGet d "flight_short" 0 > 50 ∨ dictGet d "flight_long" 0 > 100), flightRec),
   (decide (dictGet d "electricity" 0 > 40), electricityRec),
   (decide (dictGet d "natural_gas" 0 > 30), gasRec),
   (decide (dictGet d "meat_beef" 0 > 15), beefRec),
   (decide (dictGet d "meat_beef" 0 + dictGet d "meat_pork" 0
      + dictGet d "meat_chicken" 0 > 20), meatFreeRec)]

/-- The messages of exactly the rules that fired, in rule order. -/
def firedMessages (d : List (String × ℚ)) : List String :=
  ((ruleFires d).filter (fun p => p.1)).map (fun p => p.2)

/-- Non-negativity of the rational-valued form inputs (the count-valued
inputs are naturals, hence non-negative by construction). -/
def CalculationInput.Nonneg (inp : CalculationInput) : Prop :=
  0 ≤ inp.weekly_distance ∧ 0 ≤ inp.electricity_kwh ∧ 0 ≤ inp.gas_kwh

/-- A mapping that is not all-zero yet fires no threshold rule: petrol car
emissions of 20 are below the rule threshold of 30. -/
def noFireSample : List (String × ℚ) := [("car_petrol", 20)]

/-- The end-to-end scenario input: petrol car at 100 km/week, 100 kWh
electricity, no gas, 2 beef meals, no flights. -/
def scenarioInput : CalculationInput :=
  { transport_type := "car_petrol", weekly_distance := 100, short_flights := 0,
    long_flights := 0, electricity_kwh := 100, gas_kwh := 0, meat_beef := 2,
    meat_pork := 0, meat_chicken := 0, vegetarian := 0, vegan := 0,
    country := "UK" }

/-- A sample persisted record. -/
def sampleFootprint : CarbonFootprint :=
  { id := 1, user_name := "a", email := "e", weekly_total := 1,
    annual_total := 52, transport_emissions := 0, short_flights_emissions := 0,
    long_flights_emissions := 0, household_emissions := 0, diet_emissions := 1,
    country := "UK" }


/-! ## Theorems -/

theorem dictGet_of_not_mem (d : List (String × ℚ)) (k : String) (default : ℚ)
    (h : k ∉ d.map Prod.fst) : dictGet d k default = default := by
  have hf : d.find? (fun p => p.1 == k) = none := by
    rw [List.find?_eq_none]
    intro x hx hxk
    exact h (List.mem_map.mpr ⟨x, hx, by simpa using hxk⟩)
  simp [dictGet, hf]

theorem factor_car_petrol : dictGet EMISSION_FACTORS "car_petrol" 0 = 21/100 := rfl

theorem factor_flight_short : dictIndex EMISSION_FACTORS "flight_short" = 24/100 := rfl

theorem factor_flight_long : dictIndex EMISSION_FACTORS "flight_long" = 18/100 := rfl

theorem factor_electricity : dictIndex EMISSION_FACTORS "electricity" = 233/1000 := rfl

theorem factor_natural_gas : dictIndex EMISSION_FACTORS "natural_gas" = 184/1000 := rfl

theorem factor_meat_beef : dictGet EMISSION_FACTORS "meat_beef" 0 = 6 := rfl

theorem factor_meat_pork : dictGet EMISSION_FACTORS "meat_pork" 0 = 17/10 := rfl

theorem factor_meat_chicken : dictGet EMISSION_FACTORS "meat_chicken" 0 = 9/10 := rfl

theorem factor_vegetarian : dictGet EMISSION_FACTORS "vegetarian" 0 = 5/10 := rfl

theorem factor_vegan : dictGet EMISSION_FACTORS "vegan" 0 = 4/10 := rfl

theorem comparison_country_eq (annual : ℚ) (country : String) :
    (get_footprint_comparison annual country).country = country := by
  simp only [get_footprint_comparison]
  split_ifs <;> rfl

theorem comparison_national_avg_eq (annual : ℚ) (country : String) :
    (get_footprint_comparison annual country).national_avg
      = dictGet NATIONAL_AVERAGES country (dictIndex NATIONAL_AVERAGES "World") := by
  simp only [get_footprint_comparison]
  split_ifs <;> rfl

theorem comparison_percentage_eq (annual : ℚ) (country : String) :
    (get_footprint_comparison annual country).percentage
      = annual / (get_footprint_comparison annual country).national_avg * 100 := by
  rw [comparison_national_avg_eq]
  simp only [get_footprint_comparison]
  split_ifs <;> rfl

theorem comparison_status_eq_bandOf (annual : ℚ) (country : String) :
    (get_footprint_comparison annual country).status
      = bandOf (get_footprint_comparison annual country).percentage := by
  rw [comparison_percentage_eq, comparison_national_avg_eq]
  simp only [get_footprint_comparison, bandOf]
  split_ifs <;> rfl

theorem bandOf_iffs (p : ℚ) :
    (bandOf p = "high" ↔ 120 < p)
    ∧ (bandOf p = "above_avg" ↔ 100 < p ∧ p ≤ 120)
    ∧ (bandOf p = "average" ↔ 80 < p ∧ p ≤ 100)
    ∧ (bandOf p = "below_avg" ↔ 50 < p ∧ p ≤ 80)
    ∧ (bandOf p = "low" ↔ p ≤ 50) := by
  simp only [bandOf]
  split_ifs <;> simp_all
  all_goals first
    | exact ⟨fun _ => by linarith, fun _ => by linarith, by linarith⟩
    | exact ⟨fun _ => by linarith, by linarith⟩
    | linarith

/-- C1: for every annual_footprint ≥ 0 and country, the Comparator bands by
percentage = (annual/national_average)*100 with strict comparisons top-down
(high / above_avg / average / below_avg / low), and percentage exactly 100
lands in "average", not "above_avg". -/
theorem comparator_band_assignment (annual_footprint : ℚ) (country : String)
    (h : 0 ≤ annual_footprint) :
    (get_footprint_comparison annual_footprint country).percentage
      = annual_footprint / (get_footprint_comparison annual_footprint country).national_avg * 100
    ∧ (get_footprint_comparison annual_footprint country).status
      = bandOf (get_footprint_comparison annual_footprint country).percentage
    ∧ ((get_footprint_comparison annual_footprint country).status = "high"
        ↔ 120 < (get_footprint_comparison annual_footprint country).percentage)
    ∧ ((get_footprint_comparison annual_footprint country).status = "above_avg"
        ↔ 100 < (get_footprint_comparison annual_footprint country).percentage
          ∧ (get_footprint_comparison annual_footprint country).percentage ≤ 120)
    ∧ ((get_footprint_comparison annual_footprint country).status = "average"
        ↔ 80 < (get_footprint_comparison annual_footprint country).percentage
          ∧ (get_footprint_comparison annual_footprint country).percentage ≤ 100)
    ∧ ((get_footprint_comparison annual_footprint country).status = "below_avg"
        ↔ 50 < (get_footprint_comparison annual_footprint country).percentage
          ∧ (get_footprint_comparison annual_footprint country).percentage ≤ 80)
    ∧ ((get_footprint_comparison annual_footprint country).status = "low"
        ↔ (get_footprint_comparison annual_footprint country).percentage ≤ 50)
    ∧ ((get_footprint_comparison annual_footprint country).percentage = 100 →
        (get_footprint_comparison annual_footprint country).status = "average") := by
  have hs := comparison_status_eq_bandOf annual_footprint country
  have hb := bandOf_iffs (get_footprint_comparison annual_footprint country).percentage
  refine ⟨comparison_percentage_eq annual_footprint country, hs, ?_, ?_, ?_, ?_, ?_, ?_⟩
  · rw [hs]; exact hb.1
  · rw [hs]; exact hb.2.1
  · rw [hs]; exact hb.2.2.1
  · rw [hs]; exact hb.2.2.2.1
  · rw [hs]; exact hb.2.2.2.2
  · intro hp
    rw [hs, hp]
    exact (bandOf_iffs 100).2.2.1.mpr (by norm_num)

/-- C1 witness: annual footprint exactly the UK national average (5200)
gives percentage 100 and band "average". -/
theorem comparator_band_assignment_witness :
    (0:ℚ) ≤ 5200
    ∧ (get_footprint_comparison 5200 "UK").percentage = 100
    ∧ (get_footprint_comparison 5200 "UK").status = "average" := by
  have h100 : (get_footprint_comparison 5200 "UK").percentage = 100 := by
    rw [(comparator_band_assignment 5200 "UK" (by norm_num)).1,
        comparison_national_avg_eq]
    norm_num [dictGet, dictIndex, NATIONAL_AVERAGES]
  exact ⟨by norm_num, h100,
    (comparator_band_assignment 5200 "UK" (by norm_num)).2.2.2.2.2.2.2 h100⟩

theorem foldl_append_if_filter (rules : List (Bool × String)) (acc : List String) :
    List.foldl (fun r p => if p.1 = true then r ++ [p.2] else r) acc rules
      = acc ++ (rules.filter (fun p => p.1)).map (fun p => p.2) := by
  induction rules generalizing acc with
  | nil => simp
  | cons a l ih =>
    cases ha : a.1 <;> simp [List.foldl_cons, ha, ih]

theorem get_recommendations_eq (d : List (String × ℚ)) :
    get_recommendations d
      = if firedMessages d = [] then GENERAL_RECOMMENDATIONS else firedMessages d := by
  have hfold : get_recommendations d
      = if List.foldl (fun r p => if p.1 = true then r ++ [p.2] else r) [] (ruleFires d) = []
        then GENERAL_RECOMMENDATIONS
        else List.foldl (fun r p => if p.1 = true then r ++ [p.2] else r) [] (ruleFires d) := by
    simp only [get_recommendations, ruleFires, List.foldl_cons, List.foldl_nil,
      decide_eq_true_eq]
  rw [hfold]
  rw [foldl_append_if_filter]
  simp [firedMessages]

/-- C3: the Recommendation Engine is never empty; whenever none of the six
threshold rules fires — in particular for an all-zero mapping — it returns
exactly the 4-item generic fallback list in its fixed order. -/
theorem recommendations_nonempty_and_fallback (d : List (String × ℚ)) :
    get_recommendations d ≠ []
    ∧ (GENERAL_RECOMMENDATIONS.length = 4)
    ∧ (¬(dictGet d "car_petrol" 0 > 30 ∨ dictGet d "car_diesel" 0 > 30) →
       ¬(dictGet d "flight_short" 0 > 50 ∨ dictGet d "flight_long" 0 > 100) →
       ¬(dictGet d "electricity" 0 > 40) →
       ¬(dictGet d "natural_gas" 0 > 30) →
       ¬(dictGet d "meat_beef" 0 > 15) →
       ¬(dictGet d "meat_beef" 0 + dictGet d "meat_pork" 0
          + dictGet d "meat_chicken" 0 > 20) →
       get_recommendations d = GENERAL_RECOMMENDATIONS)
    ∧ ((∀ k, dictGet d k 0 = 0) → get_recommendations d = GENERAL_RECOMMENDATIONS) := by
  have hnofire : ¬(dictGet d "car_petrol" 0 > 30 ∨ dictGet d "car_diesel" 0 > 30) →
      ¬(dictGet d "flight_short" 0 > 50 ∨ dictGet d "flight_long" 0 > 100) →
      ¬(dictGet d "electricity" 0 > 40) →
      ¬(dictGet d "natural_gas" 0 > 30) →
      ¬(dictGet d "meat_beef" 0 > 15) →
      ¬(dictGet d "meat_beef" 0 + dictGet d "meat_pork" 0
         + dictGet d "meat_chicken" 0 > 20) →
      get_recommendations d = GENERAL_RECOMMENDATIONS := by
    intro h1 h2 h3 h4 h5 h6
    rw [get_recommendations_eq]
    have hfz : firedMessages d = [] := by
      simp [firedMessages, ruleFires, h1, h2, h3, h4, h5, h6]
    simp [hfz]
  refine ⟨?_, rfl, hnofire, ?_⟩
  · rw [get_recommendations_eq]
    split_ifs with hf
    · simp [GENERAL_RECOMMENDATIONS]
    · exact hf
  · intro hz
    refine hnofire ?_ ?_ ?_ ?_ ?_ ?_ <;> simp [hz]

/-- C3 witness: a mapping that is not all-zero but fires no rule (petrol
car at 20) yields the fallback, and the output is non-empty. -/
theorem recommendations_nonempty_and_fallback_witness :
    get_recommendations noFireSample = GENERAL_RECOMMENDATIONS
    ∧ get_recommendations noFireSample ≠ [] := by
  have e1 : dictGet noFireSample "car_petrol" 0 = 20 := rfl
  have e2 : dictGet noFireSample "car_diesel" 0 = 0 := rfl
  have e3 : dictGet noFireSample "flight_short" 0 = 0 := rfl
  have e4 : dictGet noFireSample "flight_long" 0 = 0 := rfl
  have e5 : dictGet noFireSample "electricity" 0 = 0 := rfl
  have e6 : dictGet noFireSample "natural_gas" 0 = 0 := rfl
  have e7 : dictGet noFireSample "meat_beef" 0 = 0 := rfl
  have e8 : dictGet noFireSample "meat_pork" 0 = 0 := rfl
  have e9 : dictGet noFireSample "meat_chicken" 0 = 0 := rfl
  refine ⟨(recommendations_nonempty_and_fallback noFireSample).2.2.1
      ?_ ?_ ?_ ?_ ?_ ?_,
    (recommendations_nonempty_and_fallback noFireSample).1⟩
  all_goals simp only [e1, e2, e3, e4, e5, e6, e7, e8, e9]
  all_goals norm_num

theorem mem_get_recommendations_iff (d : List (String × ℚ)) (m : String)
    (hm : m ∉ GENERAL_RECOMMENDATIONS) :
    m ∈ get_recommendations d ↔ m ∈ firedMessages d := by
  rw [get_recommendations_eq]
  split_ifs with hf
  · simp [hm, hf]
  · exact Iff.rfl

theorem mem_firedMessages_iff (d : List (String × ℚ)) (m : String) :
    m ∈ firedMessages d
      ↔ ((dictGet d "car_petrol" 0 > 30 ∨ dictGet d "car_diesel" 0 > 30) ∧ m = transportRec)
        ∨ ((dictGet d "flight_short" 0 > 50 ∨ dictGet d "flight_long" 0 > 100) ∧ m = flightRec)
        ∨ (dictGet d "electricity" 0 > 40 ∧ m = electricityRec)
        ∨ (dictGet d "natural_gas" 0 > 30 ∧ m = gasRec)
        ∨ (dictGet d "meat_beef" 0 > 15 ∧ m = beefRec)
        ∨ (dictGet d "meat_beef" 0 + dictGet d "meat_pork" 0
            + dictGet d "meat_chicken" 0 > 20 ∧ m = meatFreeRec) := by
  simp only [firedMessages, ruleFires, List.mem_map, List.mem_filter, List.mem_cons,
    List.not_mem_nil, or_false]
  constructor
  · rintro ⟨p, hp, hm⟩
    rcases hp with ⟨h1, h2⟩
    rcases h1 with h | h | h | h | h | h <;>
      subst h <;> simp_all [decide_eq_true_eq]
  · rintro (⟨hc, rfl⟩ | ⟨hc, rfl⟩ | ⟨hc, rfl⟩ | ⟨hc, rfl⟩ | ⟨hc, rfl⟩ | ⟨hc, rfl⟩)
    · exact ⟨_, ⟨Or.inl rfl, by simpa using hc⟩, rfl⟩
    · exact ⟨_, ⟨Or.inr (Or.inl rfl), by simpa using hc⟩, rfl⟩
    · exact ⟨_, ⟨Or.inr (Or.inr (Or.inl rfl)), by simpa using hc⟩, rfl⟩
    · exact ⟨_, ⟨Or.inr (Or.inr (Or.inr (Or.inl rfl))), by simpa using hc⟩, rfl⟩
    · exact ⟨_, ⟨Or.inr (Or.inr (Or.inr (Or.inr (Or.inl rfl)))), by simpa using hc⟩, rfl⟩
    · exact ⟨_, ⟨Or.inr (Or.inr (Or.inr (Or.inr (Or.inr rfl)))), by simpa using hc⟩, rfl⟩

/-- C7: the six threshold rules are evaluated independently in the fixed
listed order, each contributing its message exactly when its threshold
holds (so zero, one, or many rules may fire); the output is the list of
fired messages in rule order, or the fallback when none fired. -/
theorem recommendation_rules_independent (d : List (String × ℚ)) :
    (get_recommendations d
      = if firedMessages d = [] then GENERAL_RECOMMENDATIONS else firedMessages d)
    ∧ (transportRec ∈ get_recommendations d
        ↔ dictGet d "car_petrol" 0 > 30 ∨ dictGet d "car_diesel" 0 > 30)
    ∧ (flightRec ∈ get_recommendations d
        ↔ dictGet d "flight_short" 0 > 50 ∨ dictGet d "flight_long" 0 > 100)
    ∧ (electricityRec ∈ get_recommendations d ↔ dictGet d "electricity" 0 > 40)
    ∧ (gasRec ∈ get_recommendations d ↔ dictGet d "natural_gas" 0 > 30)
    ∧ (beefRec ∈ get_recommendations d ↔ dictGet d "meat_beef" 0 > 15)
    ∧ (meatFreeRec ∈ get_recommendations d
        ↔ dictGet d "meat_beef" 0 + dictGet d "meat_pork" 0
            + dictGet d "meat_chicken" 0 > 20) := by
  refine ⟨get_recommendations_eq d, ?_, ?_, ?_, ?_, ?_, ?_⟩ <;>
    rw [mem_get_recommendations_iff d _ (by decide), mem_firedMessages_iff] <;>
    simp [transportRec, flightRec, electricityRec, gasRec, beefRec, meatFreeRec,
      GENERAL_RECOMMENDATIONS]

/-- C2: for every non-negative input, the weekly total equals the sum of
the five breakdown categories and the annual total is 52 times the weekly
total; the computation introduces no rounding. -/
theorem weekly_total_is_breakdown_sum (inp : CalculationInput)
    (h : inp.Nonneg) :
    (run_calculation inp).weekly_total
      = ((run_calculation inp).weekly_breakdown.map Prod.snd).sum
    ∧ (run_calculation inp).weekly_breakdown.map Prod.fst
      = ["Transportation", "Short Flights", "Long Flights", "Household Energy", "Diet"]
    ∧ (run_calculation inp).annual_total = (run_calculation inp).weekly_total * 52 := by
  refine ⟨?_, rfl, rfl⟩
  simp only [run_calculation, List.map_cons, List.map_nil, List.sum_cons, List.sum_nil]
  ring

/-- C2 witness: the non-negativity hypothesis holds at a concrete input. -/
theorem weekly_total_is_breakdown_sum_witness :
    (run_calculation
        { transport_type := "car_petrol", weekly_distance := 100, short_flights := 0,
          long_flights := 0, electricity_kwh := 100, gas_kwh := 0, meat_beef := 2,
          meat_pork := 0, meat_chicken := 0, vegetarian := 0, vegan := 0,
          country := "UK" }).annual_total
      = (run_calculation
        { transport_type := "car_petrol", weekly_distance := 100, short_flights := 0,
          long_flights := 0, electricity_kwh := 100, gas_kwh := 0, meat_beef := 2,
          meat_pork := 0, meat_chicken := 0, vegetarian := 0, vegan := 0,
          country := "UK" }).weekly_total * 52 :=
  (weekly_total_is_breakdown_sum _ ⟨by norm_num, by norm_num, by norm_num⟩).2.2

/-- C4: unknown lookup keys never fail: a transport mode or diet category
absent from EMISSION_FACTORS contributes factor 0 (hence 0 emissions), and
a country absent from NATIONAL_AVERAGES is compared against "World". -/
theorem unknown_keys_default (mode diet country : String)
    (distance meals annual : ℚ)
    (hm : mode ∉ EMISSION_FACTORS.map Prod.fst)
    (hd : diet ∉ EMISSION_FACTORS.map Prod.fst)
    (hc : country ∉ NATIONAL_AVERAGES.map Prod.fst) :
    calculate_transportation_emissions mode distance = 0
    ∧ calculate_food_emissions diet meals = 0
    ∧ (get_footprint_comparison annual country).national_avg = 4800 := by
  refine ⟨?_, ?_, ?_⟩
  · simp [calculate_transportation_emissions, dictGet_of_not_mem _ _ _ hm]
  · simp [calculate_food_emissions, dictGet_of_not_mem _ _ _ hd]
  · rw [comparison_national_avg_eq, dictGet_of_not_mem _ _ _ hc]
    rfl

/-- C4 witness: concrete unknown keys. -/
theorem unknown_keys_default_witness :
    calculate_transportation_emissions "hoverboard" 7 = 0
    ∧ calculate_food_emissions "pescatarian" 3 = 0
    ∧ (get_footprint_comparison 1000 "Atlantis").national_avg = 4800 :=
  unknown_keys_default "hoverboard" "pescatarian" "Atlantis" 7 3 1000
    (by decide) (by decide) (by decide)

/-- C5: weekly flight emissions are (count × avg_distance × factor) / 52
with 1000 km short-haul and 6000 km long-haul; 52 short flights at factor
0.24 give exactly 240.0 kg per week. -/
theorem flight_amortization (n m : ℕ) :
    flight_short_emissions n = ((n : ℚ) * 1000 * (24/100)) / 52
    ∧ flight_long_emissions m = ((m : ℚ) * 6000 * (18/100)) / 52
    ∧ flight_short_emissions 52 = 240 := by
  refine ⟨rfl, rfl, ?_⟩
  show ((52 : ℕ) : ℚ) * 1000 * (24/100) / 52 = 240
  norm_num

/-- C6: the export rows are, in order, one "Weekly" row per breakdown
category, the weekly total, the annual total, and the "Annual"
national-average row; the row count is always the number of breakdown
categories plus 3. -/
theorem export_rows_order_and_count (data : Results) :
    format_emissions_for_download data
      = (data.weekly_breakdown.map fun p => ExportRow.mk p.1 "Weekly" p.2)
        ++ [ExportRow.mk "Total" "Weekly" data.weekly_total,
            ExportRow.mk "Total" "Annual" data.annual_total,
            ExportRow.mk "National Average" "Annual" data.comparison.national_avg]
    ∧ (format_emissions_for_download data).length = data.weekly_breakdown.length + 3 := by
  refine ⟨rfl, ?_⟩
  simp [format_emissions_for_download]

/-- C8: the computed values for the scenario input are transport 21.0,
household 23.3, diet 12.0, flights 0, weekly total 56.3 and annual total
2927.6 kg. -/
theorem end_to_end_scenario :
    (run_calculation scenarioInput).weekly_breakdown
      = [("Transportation", 21), ("Short Flights", 0), ("Long Flights", 0),
         ("Household Energy", 233/10), ("Diet", 12)]
    ∧ (run_calculation scenarioInput).weekly_total = 563/10
    ∧ (run_calculation scenarioInput).annual_total = 29276/10 := by
  refine ⟨?_, ?_, ?_⟩ <;>
    simp only [run_calculation, scenarioInput, diet_emissions,
      calculate_food_emissions, calculate_transportation_emissions,
      calculate_household_emissions, flight_short_emissions, flight_long_emissions,
      short_flight_distance, long_flight_distance,
      factor_car_petrol, factor_electricity, factor_natural_gas,
      factor_flight_short, factor_flight_long, factor_meat_beef, factor_meat_pork,
      factor_meat_chicken, factor_vegetarian, factor_vegan,
      List.map_cons, List.map_nil, List.sum_cons, List.sum_nil] <;>
    norm_num

/-- C9: delete returns true exactly when a record with the identifier
exists; on success that record is removed from the store, on failure the
store is unchanged. -/
theorem delete_footprint_spec (store : List CarbonFootprint) (fid : ℕ) :
    ((delete_footprint store fid).2 = true ↔ ∃ f ∈ store, f.id = fid)
    ∧ ((delete_footprint store fid).2 = false → (delete_footprint store fid).1 = store)
    ∧ ((delete_footprint store fid).2 = true →
        ∃ f l₁ l₂, f.id = fid ∧ store = l₁ ++ f :: l₂
          ∧ (delete_footprint store fid).1 = l₁ ++ l₂) := by
  unfold delete_footprint
  cases hfind : store.find? (fun f => f.id == fid) with
  | none =>
    have hno := List.find?_eq_none.mp hfind
    refine ⟨⟨fun hco => absurd hco (by simp), fun ⟨f, hf, hfid⟩ => ?_⟩, fun _ => rfl,
      fun hco => absurd hco (by simp)⟩
    exact absurd (by simpa using hfid) (by simpa using hno f hf)
  | some g =>
    have hg : g.id = fid := by simpa using List.find?_some hfind
    have hmem : g ∈ store := List.mem_of_find?_eq_some hfind
    refine ⟨⟨fun _ => ⟨g, hmem, hg⟩, fun _ => rfl⟩, fun hco => absurd hco (by simp),
      fun _ => ?_⟩
    obtain ⟨c, l₁, l₂, _, hc, hsplit, herase⟩ :=
      @List.exists_of_eraseP CarbonFootprint (fun f => f.id == fid) store g hmem
        (by simpa using hg)
    exact ⟨c, l₁, l₂, by simpa using hc, hsplit, by simpa using herase⟩

/-- C9 witness: the success iff from the theorem at a concrete store. -/
theorem delete_footprint_spec_witness :
    (delete_footprint [sampleFootprint] 1).2 = true
      ↔ ∃ f ∈ [sampleFootprint], f.id = 1 :=
  (delete_footprint_spec [sampleFootprint] 1).1

/-- C10: for a country absent from NATIONAL_AVERAGES, the comparison still
reports the caller's country string in its country field and embeds that
same name in the message, while the national average (hence the
percentage) comes from the "World" entry. -/
theorem unknown_country_reporting (annual : ℚ) (country : String)
    (hc : country ∉ NATIONAL_AVERAGES.map Prod.fst) :
    (get_footprint_comparison annual country).country = country
    ∧ (get_footprint_comparison annual country).national_avg = 4800
    ∧ (get_footprint_comparison annual country).percentage = annual / 4800 * 100
    ∧ ∃ pre post : List Char,
        ((get_footprint_comparison annual country).message).data
          = pre ++ country.data ++ post := by
  have havg : (get_footprint_comparison annual country).national_avg = 4800 := by
    rw [comparison_national_avg_eq, dictGet_of_not_mem _ _ _ hc]; rfl
  refine ⟨comparison_country_eq annual country, havg, ?_, ?_⟩
  · rw [comparison_percentage_eq, havg]
  · simp only [get_footprint_comparison]
    split_ifs
    · exact ⟨"Your carbon footprint is significantly higher than the ".data,
        " average.".data, by simp⟩
    · exact ⟨"Your carbon footprint is above the ".data, " average.".data, by simp⟩
    · exact ⟨"Your carbon footprint is close to the ".data, " average.".data, by simp⟩
    · exact ⟨"Your carbon footprint is below the ".data, " average. Good job!".data,
        by simp⟩
    · exact ⟨"Your carbon footprint is significantly lower than the ".data,
        " average. Excellent!".data, by simp⟩

/-- C10 witness: the unknown country "Atlantis" at an annual footprint of
1000 kg. -/
theorem unknown_country_reporting_witness :
    (get_footprint_comparison 1000 "Atlantis").country = "Atlantis"
    ∧ (get_footprint_comparison 1000 "Atlantis").national_avg = 4800
    ∧ (get_footprint_comparison 1000 "Atlantis").percentage = 1000 / 4800 * 100
    ∧ ∃ pre post : List Char,
        ((get_footprint_comparison 1000 "Atlantis").message).data
          = pre ++ ("Atlantis" : String).data ++ post :=
  unknown_country_reporting 1000 "Atlantis" (by decide)


end CarbonTracker
